import Mathlib

/-!
Verification development for the AERONET explorer data pipeline.

Shallow embedding of the pipeline in `src/src/aeronet_api.py` (class
`AeronetAPI`), `src/src/data_processing.py` (class `AeronetDataProcessor`)
and `src/app.py` (`main`).  Pandas data frames are modelled by `Table`
(a list of column names plus a list of rows of `Cell`s); Python floats
are modelled by exact rationals (`Rat`); exceptions are modelled by
`Except String`; the HTTP transport is modelled by passing the outcome
of the request (`Except String String`, the response body or the
transport failure) as an explicit argument.
-/

/-! ## Python string primitives (models of `str` methods used by the code) -/

/-- Model of Python `str.strip` on a character list: drop whitespace at both ends. -/
def trimChars (l : List Char) : List Char :=
  ((l.dropWhile Char.isWhitespace).reverse.dropWhile Char.isWhitespace).reverse

/-- Model of Python `str.strip`. -/
def pyStrip (s : String) : String :=
  ⟨trimChars s.toList⟩

/-- Model of Python `str.split(sep)` for a one-character separator, on
character lists.  `''.split(sep) == ['']`, as in Python. -/
def splitOnChar (sep : Char) : List Char → List (List Char)
  | [] => [[]]
  | c :: cs =>
    let r := splitOnChar sep cs
    if c = sep then [] :: r
    else
      match r with
      | [] => [[c]]
      | h :: t => (c :: h) :: t

/-- Model of Python `str.split(sep)` for a one-character separator. -/
def pySplit (sep : Char) (s : String) : List String :=
  (splitOnChar sep s.toList).map (fun l => ⟨l⟩)

/-- Substring test on character lists: does `pat` occur contiguously in the list? -/
def containsSub (pat : List Char) : List Char → Bool
  | [] => pat.isEmpty
  | c :: t => pat.isPrefixOf (c :: t) || containsSub pat t

/-- Model of the Python containment test `pat in s` on strings. -/
def strContains (s pat : String) : Bool :=
  containsSub pat.toList s.toList

/-- Model of Python `str.upper` (ASCII letters, which is all the code compares). -/
def pyUpper (s : String) : String :=
  ⟨s.toList.map Char.toUpper⟩

/-- Model of Python `str.startswith`. -/
def pyStartsWith (s pat : String) : Bool :=
  pat.toList.isPrefixOf s.toList

/-- Numeric value of a list of decimal digit characters. -/
def digitsToNat (l : List Char) : Nat :=
  l.foldl (fun n c => n * 10 + (c.toNat - '0'.toNat)) 0

/-- Model of Python `float(s)` (and of the numeric conversion `pandas.read_csv`
applies to numeric-looking fields) for the plain decimal forms
`[sign] digits [. digits]` that the AERONET text resources use; `none`
models the `ValueError` that `float` raises on anything unparseable.
Exotic accepted forms of Python `float` (exponents, `inf`, `nan`) are not
modelled; no claim depends on them. -/
def pyFloat (s : String) : Option Rat :=
  let (sign, rest) :=
    match s.toList with
    | '-' :: t => (true, t)
    | '+' :: t => (false, t)
    | t => (false, t)
  let ip := rest.takeWhile Char.isDigit
  let r2 := rest.drop ip.length
  let build : List Char → Nat → Rat := fun ds den =>
    mkRat (if sign then -(Int.ofNat (digitsToNat ds)) else Int.ofNat (digitsToNat ds)) den
  match r2 with
  | [] => if ip.isEmpty then none else some (build ip 1)
  | '.' :: fr =>
    if fr.all Char.isDigit && !(ip.isEmpty && fr.isEmpty) then
      some (build (ip ++ fr) (10 ^ fr.length))
    else none
  | _ => none

/-! ## Data model: cells and tables -/

/-- A cell of a data frame: a float (exact rational in the model), a string,
a datetime (chronologically ordered encoding), or a missing value
(`NaN`/`None`, written `null`). -/
inductive Cell where
  | num (q : Rat)
  | str (s : String)
  | dt (t : Nat)
  | null
deriving DecidableEq

/-- A pandas data frame: ordered column names and ordered rows of cells. -/
structure Table where
  cols : List String
  rows : List (List Cell)
deriving DecidableEq

/-- Is the cell a missing value (pandas `isna`)? -/
def isNaCell : Cell → Bool
  | Cell.null => true
  | _ => false

/-- Cells a numeric (float/int) pandas column can hold: numbers and `NaN`.
A column whose cells all satisfy this is selected by
`select_dtypes(include=[np.number])`. -/
def isNumericCell : Cell → Bool
  | Cell.num _ => true
  | Cell.null => true
  | _ => false

/-- The cells of column `j` of a table, in row order (missing entries read as `NaN`). -/
def colCells (t : Table) (j : Nat) : List Cell :=
  t.rows.map (fun r => r.getD j Cell.null)

/-- Does column `j` of `t` have a numeric dtype?  (All its cells are numbers or `NaN`.) -/
def isNumericColAt (t : Table) (j : Nat) : Bool :=
  (colCells t j).all isNumericCell

/-- Index of the column with the given name (pandas label lookup). -/
def colIdx (cols : List String) (name : String) : Option Nat :=
  cols.findIdx? (fun c => c == name)

/-- The cell of row `r` in the column named `name`. -/
def getCellByName (cols : List String) (r : List Cell) (name : String) : Cell :=
  match colIdx cols name with
  | some j => r.getD j Cell.null
  | none => Cell.null

/-- The cells of the column named `name`, in row order (`df[name]`). -/
def getColumnByName (t : Table) (name : String) : List Cell :=
  t.rows.map (fun r => getCellByName t.cols r name)

/-! ## Column resolver: `AeronetDataProcessor.extract_aod_columns` -/

/-- `self.aod_wavelengths` from `AeronetDataProcessor.__init__`. -/
def aod_wavelengths : List Nat := [340, 380, 440, 500, 675, 870, 1020]

/-- The match test of `extract_aod_columns`:
`str(wavelength) in col and 'AOD' in col.upper()`. -/
def colMatchesWavelength (col : String) (w : Nat) : Bool :=
  strContains col (toString w) && strContains (pyUpper col) "AOD"

/-- The inner loop of `extract_aod_columns`: the first wavelength of
`aod_wavelengths` matching `col` (the loop `break`s after the first hit). -/
def firstWavelengthFor (col : String) : Option Nat :=
  aod_wavelengths.find? (fun w => colMatchesWavelength col w)

/-- Python dict assignment `d[k] = v`: overwrite in place, or append a new binding. -/
def dictInsert (k : Nat) (v : String) : List (Nat × String) → List (Nat × String)
  | [] => [(k, v)]
  | (k0, v0) :: rest =>
    if k0 = k then (k, v) :: rest else (k0, v0) :: dictInsert k v rest

/-- Python dict lookup `d[k]` / membership `k in d`. -/
def dictLookup (k : Nat) : List (Nat × String) → Option String
  | [] => none
  | (k0, v0) :: rest => if k0 = k then some v0 else dictLookup k rest

/-- One iteration of the outer (column) loop of `extract_aod_columns`:
bind the first matching wavelength of `col`, if any, to `col`. -/
def extract_step (acc : List (Nat × String)) (col : String) : List (Nat × String) :=
  match firstWavelengthFor col with
  | some w => dictInsert w col acc
  | none => acc

/-- `AeronetDataProcessor.extract_aod_columns` (data_processing.py:14-25):
for each column, for each wavelength, if the column name contains the
wavelength numeral and a case-insensitive `AOD`, bind that wavelength to
the column and `break` the wavelength loop. -/
def extract_aod_columns (df : Table) : List (Nat × String) :=
  df.cols.foldl extract_step []

/-! ## Data cleaner: `AeronetDataProcessor.clean_data` -/

/-- The replacement `replace([-999, -999.0, 'N/A'], np.nan)` applied to one
cell (data_processing.py:36).  In the exact-rational model the integer
`-999` and the float `-999.0` are the same value. -/
def replaceSentinelCell : Cell → Cell
  | Cell.num q => if q = -999 then Cell.null else Cell.num q
  | Cell.str s => if s = "N/A" then Cell.null else Cell.str s
  | c => c

/-- Apply `replaceSentinelCell` to the cells of a row that sit in
numeric-dtype columns of `t`; `j0` is the column index of the row head. -/
def replaceRowFrom (t : Table) : Nat → List Cell → List Cell
  | _, [] => []
  | j0, c :: cs =>
    (if isNumericColAt t j0 then replaceSentinelCell c else c) :: replaceRowFrom t (j0 + 1) cs

/-- Lines 35-36 of data_processing.py:
`df_clean[numeric_cols] = df_clean[numeric_cols].replace([-999, -999.0, 'N/A'], np.nan)`,
where `numeric_cols = df_clean.select_dtypes(include=[np.number]).columns`. -/
def replaceInvalid (t : Table) : Table :=
  { cols := t.cols, rows := t.rows.map (replaceRowFrom t 0) }

/-- `AeronetDataProcessor.clean_data` (data_processing.py:27-44): on a
non-empty frame, replace sentinel values with `NaN` in numeric columns,
then, if any AOD column resolved, drop the rows whose resolved AOD cells
are all `NaN` (`dropna(subset=aod_col_names, how='all')`). -/
def clean_data (t : Table) : Table :=
  if t.rows.isEmpty then t
  else
    let t1 := replaceInvalid t
    let aod_cols := extract_aod_columns t1
    if aod_cols.isEmpty then t1
    else
      let names := aod_cols.map (fun p => p.2)
      { cols := t1.cols,
        rows := t1.rows.filter
          (fun r => !(names.all (fun nm => isNaCell (getCellByName t1.cols r nm)))) }

/-! ## Statistics aggregator: `AeronetDataProcessor.calculate_statistics` -/

/-- `series.dropna()`: the non-null cells, in order. -/
def dropna (cells : List Cell) : List Cell :=
  cells.filter (fun c => !isNaCell c)

/-- The numeric value of a cell, if it is a number. -/
def cellNum : Cell → Option Rat
  | Cell.num q => some q
  | _ => none

/-- The numeric values of a list of cells; `none` if any cell is non-numeric. -/
def numsOf : List Cell → Option (List Rat)
  | [] => some []
  | c :: t =>
    match cellNum c, numsOf t with
    | some q, some l => some (q :: l)
    | _, _ => none

/-- Ascending sort of the observations, as the pandas order statistics use. -/
def sortRats (l : List Rat) : List Rat :=
  List.insertionSort (fun a b => a ≤ b) l

/-- Sum of a list of rationals. -/
def ratSum (l : List Rat) : Rat :=
  l.foldl (fun a b => a + b) 0

/-- `series.min()` on a non-empty list (0 is a don't-care value for `[]`). -/
def listMin : List Rat → Rat
  | [] => 0
  | x :: t => t.foldl min x

/-- `series.max()` on a non-empty list (0 is a don't-care value for `[]`). -/
def listMax : List Rat → Rat
  | [] => 0
  | x :: t => t.foldl max x

/-- `series.median()`: middle order statistic, or the mean of the two middle
ones for even counts. -/
def medianOf (l : List Rat) : Rat :=
  let s := sortRats l
  let n := s.length
  if n % 2 = 1 then s.getD (n / 2) 0
  else (s.getD (n / 2 - 1) 0 + s.getD (n / 2) 0) / 2

/-- `series.quantile(p)` with the default linear interpolation between order
statistics: with `h = (n-1)p`, `i = ⌊h⌋`, `g = h - i`, the result is
`s[i] + g*(s[i+1] - s[i])`.  `h` is non-negative, so `⌊h⌋` is computed as
`h.num.toNat / h.den`. -/
def quantileLinear (l : List Rat) (p : Rat) : Rat :=
  let s := sortRats l
  let n := s.length
  let h : Rat := p * ((n - 1 : Nat) : Rat)
  let i : Nat := h.num.toNat / h.den
  let g : Rat := h - (i : Rat)
  let lo := s.getD i 0
  let hi := s.getD (min (i + 1) (n - 1)) 0
  lo + g * (hi - lo)

/-- The record returned by `calculate_statistics` (data_processing.py:59-68).
`std2` holds the square of the source's `std` field (the sample variance);
the source's `std` is its square root, and `series.std()` with the default
`ddof=1` is `NaN` for a single observation, modelled by `none`. -/
structure AodStats where
  count : Nat
  mean : Rat
  median : Rat
  std2 : Option Rat
  min : Rat
  max : Rat
  q25 : Rat
  q75 : Rat
deriving DecidableEq

/-- `AeronetDataProcessor.calculate_statistics` (data_processing.py:46-68):
resolve the wavelength through `extract_aod_columns`; `{}` (modelled
`none`) if the wavelength is unresolved or the column is empty after
`dropna()`; otherwise the descriptive statistics of the non-null values.
On a column holding non-numeric values the source raises `TypeError`
inside the pandas reductions; that branch (`numsOf` returning `none`)
is modelled as `none` and is unreachable for numeric columns, the only
case the theorems below state. -/
def calculate_statistics (df : Table) (wavelength : Nat) : Option AodStats :=
  let aod_cols := extract_aod_columns df
  match dictLookup wavelength aod_cols with
  | none => none
  | some col_name =>
    let data := dropna (getColumnByName df col_name)
    if data.isEmpty then none
    else
      match numsOf data with
      | none => none
      | some xs =>
        let n := xs.length
        let m := ratSum xs / (n : Rat)
        some
          { count := n
            mean := m
            median := medianOf xs
            std2 :=
              if 2 ≤ n then some (ratSum (xs.map (fun x => (x - m) ^ 2)) / ((n : Rat) - 1))
              else none
            min := listMin xs
            max := listMax xs
            q25 := quantileLinear xs (mkRat 1 4)
            q75 := quantileLinear xs (mkRat 3 4) }

/-- All columns that `extract_aod_columns` resolves hold only numeric cells.
This is the typing assumption under which the statistics claims are stated
(AOD columns of a parsed response are measurement columns). -/
def aodColsNumeric (df : Table) : Bool :=
  (extract_aod_columns df).all (fun p => (getColumnByName df p.2).all isNumericCell)

/-! ## Normalizer: the response-parsing part of `AeronetAPI.get_aod_data` -/

/-- The header test of the metadata-skipping loop (aeronet_api.py:112):
`line.startswith('Date(dd:mm:yyyy)') or line.startswith('Date_')`. -/
def isDateHeader (line : String) : Bool :=
  pyStartsWith line "Date(dd:mm:yyyy)" || pyStartsWith line "Date_"

/-- Lines 110-118 of aeronet_api.py: `data_start` is the index of the first
header line (0 when the scan finds nothing), and a final value of 0 is
replaced by the fallback `min(6, len(lines) - 1)`. -/
def find_data_start (lines : List String) : Nat :=
  let ds := (lines.findIdx? isDateHeader).getD 0
  if ds = 0 then min 6 (lines.length - 1) else ds

/-- `response.text.strip().split('\n')` (aeronet_api.py:107). -/
def splitLines (body : String) : List String :=
  pySplit '\n' (pyStrip body)

/-- Model of `pd.read_csv(StringIO('\n'.join(lines)))` (aeronet_api.py:121-122):
first non-blank line is the header (comma-separated column names); a
column all of whose fields are empty or numeric-looking gets a numeric
dtype (empty fields read as `NaN`), any other column keeps its fields as
strings (empty fields still `NaN`).  Rows shorter than the header are
padded with `NaN`; the pathological cases (rows longer than the header,
duplicate column names) that make pandas error or mangle names are not
modelled, and no claim depends on them. -/
def read_csv_lines (lines : List String) : Table :=
  match lines.filter (fun l => !(pyStrip l).isEmpty) with
  | [] => { cols := [], rows := [] }
  | header :: rest =>
    let cols := pySplit ',' header
    let rawRows := rest.map (fun l => pySplit ',' l)
    let numericAt : Nat → Bool := fun j =>
      rawRows.all (fun r => (r.getD j "").isEmpty || (pyFloat (r.getD j "")).isSome)
    { cols := cols,
      rows := rawRows.map (fun r =>
        (List.range cols.length).map (fun j =>
          let s := r.getD j ""
          if s.isEmpty then Cell.null
          else if numericAt j then
            match pyFloat s with
            | some q => Cell.num q
            | none => Cell.null
          else Cell.str s)) }

/-- Chronologically ordered encoding of a calendar timestamp (components are
kept within their mixed radices, so the encoding is order-faithful). -/
def encodeTimestamp (y m d hh mi s : Nat) : Nat :=
  ((((y * 13 + m) * 32 + d) * 24 + hh) * 60 + mi) * 60 + s

/-- A list of decimal digits read as a number; `none` if empty or non-numeric. -/
def parseNatDigits (l : List Char) : Option Nat :=
  if !l.isEmpty && l.all Char.isDigit then some (digitsToNat l) else none

/-- Days in a month, with the Gregorian leap rule (the datetime range check). -/
def daysInMonth (y m : Nat) : Nat :=
  if m = 2 then (if (y % 4 = 0 && y % 100 ≠ 0) || y % 400 = 0 then 29 else 28)
  else if m = 4 || m = 6 || m = 9 || m = 11 then 30 else 31

/-- Build a timestamp after the range validation `datetime` performs. -/
def mkTimestampChecked (y m d hh mi s : Nat) : Option Nat :=
  if 1 ≤ m && m ≤ 12 && 1 ≤ d && d ≤ daysInMonth y m && hh ≤ 23 && mi ≤ 59 && s ≤ 59 then
    some (encodeTimestamp y m d hh mi s)
  else none

/-- Model of `pd.to_datetime(s, format='%d:%m:%Y %H:%M:%S')` on one string
(aeronet_api.py:128-129): a colon-separated day:month:year date, a space,
and a colon-separated time of day; `none` models the parse error. -/
def parseDmyHms (s : String) : Option Nat :=
  match pySplit ' ' s with
  | [dpart, tpart] =>
    match pySplit ':' dpart, pySplit ':' tpart with
    | [d, m, y], [hh, mi, sec] =>
      match parseNatDigits d.toList, parseNatDigits m.toList, parseNatDigits y.toList,
            parseNatDigits hh.toList, parseNatDigits mi.toList, parseNatDigits sec.toList with
      | some dn, some mn, some yn, some hn, some min, some sn =>
        mkTimestampChecked yn mn dn hn min sn
      | _, _, _, _, _, _ => none
    | _, _ => none
  | _ => none

/-- Model of format-inferring `pd.to_datetime(s)` (aeronet_api.py:134-136) for
the ISO forms `YYYY-MM-DD` and `YYYY-MM-DD HH:MM:SS` the alternate AERONET
convention carries; `none` models the parse error.  (The pandas inference
accepts further formats; no claim depends on them.) -/
def parseIso (s : String) : Option Nat :=
  match pySplit ' ' s with
  | [dpart] =>
    match pySplit '-' dpart with
    | [y, m, d] =>
      match parseNatDigits y.toList, parseNatDigits m.toList, parseNatDigits d.toList with
      | some yn, some mn, some dn => mkTimestampChecked yn mn dn 0 0 0
      | _, _, _ => none
    | _ => none
  | [dpart, tpart] =>
    match pySplit '-' dpart, pySplit ':' tpart with
    | [y, m, d], [hh, mi, sec] =>
      match parseNatDigits y.toList, parseNatDigits m.toList, parseNatDigits d.toList,
            parseNatDigits hh.toList, parseNatDigits mi.toList, parseNatDigits sec.toList with
      | some yn, some mn, some dn, some hn, some minn, some sn =>
        mkTimestampChecked yn mn dn hn minn sn
      | _, _, _, _, _, _ => none
    | _, _ => none
  | _ => none

/-- The string content of a cell, if it is a string. -/
def cellStr : Cell → Option String
  | Cell.str s => some s
  | _ => none

/-- Append the `datetime` cell computed by `f` to every row; `none` if `f`
fails on any row (the whole `pd.to_datetime` call raises). -/
def attachRows (f : List Cell → Option Nat) : List (List Cell) → Option (List (List Cell))
  | [] => some []
  | r :: t =>
    match f r, attachRows f t with
    | some ts, some rest => some ((r ++ [Cell.dt ts]) :: rest)
    | _, _ => none

/-- Lines 125-136 of aeronet_api.py: on a non-empty frame, build the
`datetime` column from `Date(dd:mm:yyyy)`+`Time(hh:mm:ss)` when the first
convention is present (a missing time column is a `KeyError`, caught and
re-raised as a parse failure), else from the first columns containing
`Date_` (and `Time_` when present); when neither convention is present the
frame passes through untouched.  In the model a null or non-string date
cell makes the `pd.to_datetime` of the column fail; no claim depends on
that corner (the source produces `NaT` for a null there). -/
def attach_datetime (df : Table) : Except String Table :=
  if df.rows.isEmpty then Except.ok df
  else if df.cols.contains "Date(dd:mm:yyyy)" then
    if df.cols.contains "Time(hh:mm:ss)" then
      match attachRows (fun r =>
          match cellStr (getCellByName df.cols r "Date(dd:mm:yyyy)"),
                cellStr (getCellByName df.cols r "Time(hh:mm:ss)") with
          | some ds, some ts => parseDmyHms (ds ++ " " ++ ts)
          | _, _ => none) df.rows with
      | some rows2 => Except.ok { cols := df.cols ++ ["datetime"], rows := rows2 }
      | none => Except.error "Failed to parse data: unparseable date or time"
    else Except.error "Failed to parse data: 'Time(hh:mm:ss)'"
  else if df.cols.any (fun c => strContains c "Date_") then
    let date_col := ((df.cols.filter (fun c => strContains c "Date_")).headD "")
    if df.cols.any (fun c => strContains c "Time_") then
      let time_col := ((df.cols.filter (fun c => strContains c "Time_")).headD "")
      match attachRows (fun r =>
          match cellStr (getCellByName df.cols r date_col),
                cellStr (getCellByName df.cols r time_col) with
          | some ds, some ts => parseIso (ds ++ " " ++ ts)
          | _, _ => none) df.rows with
      | some rows2 => Except.ok { cols := df.cols ++ ["datetime"], rows := rows2 }
      | none => Except.error "Failed to parse data: unparseable date or time"
    else
      match attachRows (fun r =>
          match cellStr (getCellByName df.cols r date_col) with
          | some ds => parseIso ds
          | _ => none) df.rows with
      | some rows2 => Except.ok { cols := df.cols ++ ["datetime"], rows := rows2 }
      | none => Except.error "Failed to parse data: unparseable date"
  else Except.ok df

/-- The sort key of `df.sort_values('datetime')`: the row's `datetime` cell. -/
def rowKey (cols : List String) (r : List Cell) : Nat :=
  match getCellByName cols r "datetime" with
  | Cell.dt t => t
  | _ => 0

/-- Lines 139-140 of aeronet_api.py: `df = df.sort_values('datetime')` when a
`datetime` column exists.  `sort_values` uses numpy's default quicksort,
whose ordering of tied keys is implementation-defined; the model uses a
sort that is correct for the key order, and no theorem below depends on
the order chosen among tied rows. -/
def sort_by_datetime (t : Table) : Table :=
  if t.cols.contains "datetime" then
    { cols := t.cols,
      rows := List.insertionSort (fun a b => rowKey t.cols a ≤ rowKey t.cols b) t.rows }
  else t

/-- `AeronetAPI.get_aod_data` (aeronet_api.py:65-149) as a function of the
transport outcome: a transport failure (DNS, refused connection, timeout,
non-2xx status from `raise_for_status`) is a `requests.RequestException`
and surfaces as `Failed to fetch data: <cause>`; an empty (after `strip`)
body returns the empty frame; otherwise the body is parsed from
`find_data_start` on, the `datetime` column is resolved and the rows are
sorted by it, and any parsing failure surfaces as `Failed to parse data`. -/
def get_aod_data (resp : Except String String) : Except String Table :=
  match resp with
  | Except.error cause => Except.error ("Failed to fetch data: " ++ cause)
  | Except.ok body =>
    if (pyStrip body).isEmpty then Except.ok { cols := [], rows := [] }
    else
      let lines := splitLines body
      let ds := find_data_start lines
      let df := read_csv_lines (lines.drop ds)
      match attach_datetime df with
      | Except.ok df2 => Except.ok (sort_by_datetime df2)
      | Except.error e => Except.error e

/-! ## Site directory loader: `AeronetAPI.get_sites_list` -/

/-- One site of the AERONET directory (aeronet_api.py:51-56). -/
structure Site where
  site_name : String
  longitude : Rat
  latitude : Rat
  elevation : Rat
deriving DecidableEq

/-- One iteration of the parsing loop of `get_sites_list` (aeronet_api.py:47-56):
blank lines and lines with fewer than four comma-separated fields are
skipped (`ok none`); otherwise the longitude, latitude and elevation
fields are converted with `float` (an empty elevation defaults to 0.0),
and a conversion failure is the `ValueError` the surrounding handler
catches. -/
def parse_site_line (line : String) : Except String (Option Site) :=
  if (pyStrip line).isEmpty then Except.ok none
  else
    let parts := pySplit ',' line
    if parts.length < 4 then Except.ok none
    else
      match pyFloat (pyStrip (parts.getD 1 "")), pyFloat (pyStrip (parts.getD 2 "")) with
      | some lon, some lat =>
        let e := pyStrip (parts.getD 3 "")
        if e.isEmpty then
          Except.ok (some { site_name := pyStrip (parts.getD 0 ""), longitude := lon,
                            latitude := lat, elevation := mkRat 0 1 })
        else
          match pyFloat e with
          | some el =>
            Except.ok (some { site_name := pyStrip (parts.getD 0 ""), longitude := lon,
                              latitude := lat, elevation := el })
          | none => Except.error "could not convert string to float"
      | _, _ => Except.error "could not convert string to float"

/-- The parsing loop of `get_sites_list` over the lines after the header. -/
def parse_sites_lines : List String → Except String (List Site)
  | [] => Except.ok []
  | l :: t =>
    match parse_site_line l with
    | Except.error e => Except.error e
    | Except.ok none => parse_sites_lines t
    | Except.ok (some s) =>
      match parse_sites_lines t with
      | Except.ok rest => Except.ok (s :: rest)
      | Except.error e => Except.error e

/-- `AeronetAPI.get_sites_list` (aeronet_api.py:34-63) as a function of the
transport outcome: the whole body sits in a `try` whose handler logs the
failure and returns an empty frame, so a transport failure or any parse
failure yields the empty site list instead of propagating. -/
def get_sites_list (resp : Except String String) : List Site :=
  match resp with
  | Except.error _ => []
  | Except.ok body =>
    match parse_sites_lines ((splitLines body).drop 1) with
    | Except.ok sites => sites
    | Except.error _ => []

/-! ## Application control flow: `main` in app.py -/

/-- A `datetime.date`: Python compares dates by the (year, month, day) tuple. -/
structure PyDate where
  year : Nat
  month : Nat
  day : Nat
deriving DecidableEq

/-- Python `start_date > end_date` on dates: lexicographic tuple comparison. -/
def dateGt (a b : PyDate) : Bool :=
  if a.year ≠ b.year then decide (b.year < a.year)
  else if a.month ≠ b.month then decide (b.month < a.month)
  else decide (b.day < a.day)

/-- The sidebar state `main` reads before deciding to download
(app.py:86-167): whether the site directory came back empty, the two
selected dates, the selected wavelengths, and whether the download button
was pressed. -/
structure AppInputs where
  sites_empty : Bool
  start_date : PyDate
  end_date : PyDate
  wavelengths : List Nat
  download : Bool
deriving DecidableEq

/-- The request-issuing decision of `main` (app.py:93-129, 158-167, 209-219):
`main` returns before reaching the download block when the site list is
empty (line 95), when `start_date > end_date` (lines 127-129) and when no
wavelength is selected (lines 158-160); `api.get_aod_data` is called (the
one network request to the measurement endpoint) only afterwards and only
when the download button was pressed.  The value is the `(start, end)`
range handed to `get_aod_data`, or `none` when no request is issued. -/
def main_fetch_request (inp : AppInputs) : Option (PyDate × PyDate) :=
  if inp.sites_empty then none
  else if dateGt inp.start_date inp.end_date then none
  else if inp.wavelengths.isEmpty then none
  else if inp.download then some (inp.start_date, inp.end_date)
  else none

/-! ## Concrete instances used by the claim theorems -/

/-- A response body with six metadata lines, then a header and one data row,
none of whose columns follow either date-naming convention. -/
def exDatelessBody : String := "m1\nm2\nm3\nm4\nm5\nm6\ncolA,colB\n1,2"

/-- The frame the code returns for `exDatelessBody`. -/
def exDatelessTable : Table :=
  { cols := ["colA", "colB"], rows := [[Cell.num (mkRat 1 1), Cell.num (mkRat 2 1)]] }

/-- A frame with one resolvable AOD column and no date columns. -/
def exPlainFrame : Table := { cols := ["colA"], rows := [[Cell.num (mkRat 2 1)]] }

/-- The column of the statistics example: `[0.1, 0.2, null, 0.4]` at 440nm. -/
def exStatsTable : Table :=
  { cols := ["AOD_440"],
    rows := [[Cell.num (mkRat 1 10)], [Cell.num (mkRat 1 5)], [Cell.null],
             [Cell.num (mkRat 2 5)]] }

/-- A frame with a sentinel `-999` in a numeric non-AOD column. -/
def exSentinelTable : Table :=
  { cols := ["AOD_500", "other"],
    rows := [[Cell.num (mkRat 2 1), Cell.num (mkRat (-999) 1)]] }

/-- A frame with an all-null AOD row (dropped) and a non-null one (kept). -/
def exDropTable : Table :=
  { cols := ["AOD_675"], rows := [[Cell.null], [Cell.num (mkRat 1 2)]] }

/-- Sidebar state with an inverted date range and the download button pressed. -/
def exInvertedInputs : AppInputs :=
  { sites_empty := false, start_date := { year := 2024, month := 5, day := 10 },
    end_date := { year := 2024, month := 5, day := 1 }, wavelengths := [440],
    download := true }

/-- A site directory body whose longitude field is not a number. -/
def exBadSitesBody : String := "Site_Name,Longitude,Latitude,Elevation\nBadSite,abc,1,2"

-- Equality of modelled exception outcomes is decidable.
deriving instance DecidableEq for Except

/-! ## Theorems -/

theorem dictLookup_dictInsert (k k0 : Nat) (v : String) (l : List (Nat × String)) :
    dictLookup k (dictInsert k0 v l) = if k0 = k then some v else dictLookup k l := by
  induction l with
  | nil =>
    by_cases h : k0 = k <;> simp [dictInsert, dictLookup, h]
  | cons p rest ih =>
    obtain ⟨k1, v1⟩ := p
    simp only [dictInsert]
    by_cases h1 : k1 = k0
    · subst h1
      by_cases h : k1 = k <;> simp [dictLookup, h]
    · rw [if_neg h1]
      by_cases h2 : k1 = k
      · subst h2
        have hk : ¬ k0 = k1 := fun he => h1 he.symm
        simp [dictLookup, hk]
      · simp [dictLookup, h2, ih]

theorem dictLookup_foldl_extract (w : Nat) (cols : List String) :
    ∀ acc, dictLookup w (cols.foldl extract_step acc) =
      Option.or (cols.reverse.find? (fun c => firstWavelengthFor c == some w))
        (dictLookup w acc) := by
  induction cols with
  | nil => intro acc; simp
  | cons c cs ih =>
    intro acc
    have hstep : dictLookup w (extract_step acc c) =
        Option.or ([c].find? (fun c => firstWavelengthFor c == some w)) (dictLookup w acc) := by
      cases hf : firstWavelengthFor c with
      | none => simp [extract_step, hf, List.find?]
      | some w0 =>
        by_cases hw : w0 = w
        · subst hw
          simp [extract_step, hf, List.find?, dictLookup_dictInsert]
        · have hbeq : (w0 == w) = false := by simp [hw]
          simp [extract_step, hf, List.find?, dictLookup_dictInsert, hw, hbeq, Option.or]
    rw [List.foldl_cons, ih (extract_step acc c), hstep, List.reverse_cons,
      List.find?_append, Option.or_assoc]

/-- C1 (amended): for every table and wavelength, the resolver binds the
wavelength to the LAST column in column order whose first matching
wavelength (in the order of `aod_wavelengths`) is that wavelength —
a later matching column overwrites an earlier binding, so on ties the
rightmost column wins, not the leftmost. -/
theorem extract_aod_columns_last_match_wins (df : Table) (w : Nat) :
    dictLookup w (extract_aod_columns df) =
      df.cols.reverse.find? (fun c => firstWavelengthFor c == some w) := by
  rw [extract_aod_columns, dictLookup_foldl_extract]
  simp [dictLookup, Option.or_none]

/-- C1 (counterexample): with columns `["AOD_440nm", "AOD440_alt"]` the claim
says wavelength 440 resolves to the leftmost match `"AOD_440nm"`; the code
resolves it to `"AOD440_alt"`. -/
theorem extract_aod_columns_not_leftmost :
    dictLookup 440 (extract_aod_columns { cols := ["AOD_440nm", "AOD440_alt"], rows := [] }) =
        some "AOD440_alt" ∧
      dictLookup 440 (extract_aod_columns { cols := ["AOD_440nm", "AOD440_alt"], rows := [] }) ≠
        some "AOD_440nm" := by
  constructor
  · decide
  · decide

/-- C7 (amended): the header scan runs over all lines of the response; the
first line starting with a date-column marker starts the data when its
index is positive, while a marker on the very first line is
indistinguishable from "no marker found" and, like that case, falls back
to `min 6 (number of lines - 1)`. -/
theorem find_data_start_characterization (lines : List String) :
    (lines.findIdx? isDateHeader = none →
        find_data_start lines = min 6 (lines.length - 1)) ∧
    (∀ i, lines.findIdx? isDateHeader = some i →
        (i = 0 → find_data_start lines = min 6 (lines.length - 1)) ∧
        (i ≠ 0 → find_data_start lines = i)) := by
  constructor
  · intro h
    simp [find_data_start, h]
  · intro i h
    constructor
    · intro h0
      subst h0
      simp [find_data_start, h]
    · intro h0
      simp [find_data_start, h, h0]

theorem find_data_start_characterization_witness :
    (["meta", "junk", "Date_x,y", "row"].findIdx? isDateHeader = some 2) ∧
      find_data_start ["meta", "junk", "Date_x,y", "row"] = 2 :=
  ⟨by decide,
    ((find_data_start_characterization ["meta", "junk", "Date_x,y", "row"]).2 2
      (by decide)).2 (by decide)⟩

/-- C7 (counterexample): a response whose very first line is a recognised
header line is parsed from the fallback offset 6, not from that line. -/
theorem find_data_start_header_at_zero :
    isDateHeader "Date_x,y" = true ∧
      find_data_start ["Date_x,y", "r1", "r2", "r3", "r4", "r5", "r6", "r7"] = 6 ∧
      find_data_start ["Date_x,y", "r1", "r2", "r3", "r4", "r5", "r6", "r7"] ≠ 0 :=
  ⟨by decide, by decide, by decide⟩

/-- C9 (confirmed): whenever the selected start date is strictly after the end
date, `main` returns at the validation step and no request to the
measurement endpoint is issued. -/
theorem main_rejects_inverted_dates (inp : AppInputs)
    (h : dateGt inp.start_date inp.end_date = true) :
    main_fetch_request inp = none := by
  unfold main_fetch_request
  by_cases hs : inp.sites_empty <;> simp [hs, h]

theorem main_rejects_inverted_dates_witness :
    dateGt exInvertedInputs.start_date exInvertedInputs.end_date = true ∧
      main_fetch_request exInvertedInputs = none :=
  ⟨by decide, main_rejects_inverted_dates exInvertedInputs (by decide)⟩

/-- C6 (confirmed): a transport failure surfaces as a fetch error carrying the
underlying cause, and a body that is empty after stripping yields the
empty frame rather than an error.  The function consumes exactly one
transport outcome per call: no retry is modelled or performed. -/
theorem get_aod_data_transport_behavior :
    (∀ cause : String,
        get_aod_data (Except.error cause) =
          Except.error ("Failed to fetch data: " ++ cause)) ∧
    (∀ body : String, (pyStrip body).isEmpty = true →
        get_aod_data (Except.ok body) = Except.ok { cols := [], rows := [] }) := by
  constructor
  · intro cause
    rfl
  · intro body h
    simp [get_aod_data, h]

theorem get_aod_data_transport_behavior_witness :
    (pyStrip "  \n ").isEmpty = true ∧
      get_aod_data (Except.ok "  \n ") = Except.ok { cols := [], rows := [] } ∧
      get_aod_data (Except.error "timeout") =
        Except.error "Failed to fetch data: timeout" :=
  ⟨by decide, get_aod_data_transport_behavior.2 "  \n " (by decide),
    (get_aod_data_transport_behavior.1 "timeout").trans (by decide)⟩

/-- C2 (amended): a parsed frame none of whose columns follows either
date-naming convention is returned unchanged and without error (stated for
frames without a pre-existing literal `datetime` column, which the sort
step would otherwise pick up); no `NormalizationError` is raised for it. -/
theorem normalize_no_convention_returns_table (df : Table)
    (h1 : df.cols.contains "Date(dd:mm:yyyy)" = false)
    (h2 : df.cols.any (fun c => strContains c "Date_") = false)
    (h3 : df.cols.contains "datetime" = false) :
    attach_datetime df = Except.ok df ∧ sort_by_datetime df = df := by
  have h1m : "Date(dd:mm:yyyy)" ∉ df.cols := by simpa using h1
  have h3m : "datetime" ∉ df.cols := by simpa using h3
  constructor
  · unfold attach_datetime
    by_cases he : df.rows.isEmpty <;> simp [he, h1m, h2]
  · unfold sort_by_datetime
    simp [h3m]

theorem normalize_no_convention_returns_table_witness :
    exPlainFrame.cols.contains "Date(dd:mm:yyyy)" = false ∧
      exPlainFrame.cols.any (fun c => strContains c "Date_") = false ∧
      exPlainFrame.cols.contains "datetime" = false ∧
      (attach_datetime exPlainFrame = Except.ok exPlainFrame ∧
        sort_by_datetime exPlainFrame = exPlainFrame) :=
  ⟨by decide, by decide, by decide,
    normalize_no_convention_returns_table exPlainFrame (by decide) (by decide) (by decide)⟩

/-- C2 (counterexample): a non-empty response that parses to a frame with one
data row and no date columns under either convention is returned as a
table (`Except.ok`), where the claim demands a `NormalizationError`. -/
theorem normalize_dateless_counterexample :
    get_aod_data (Except.ok exDatelessBody) = Except.ok exDatelessTable ∧
      exDatelessTable.rows ≠ [] ∧
      exDatelessTable.cols.contains "Date(dd:mm:yyyy)" = false ∧
      exDatelessTable.cols.any (fun c => strContains c "Date_") = false :=
  ⟨by decide, by decide, by decide, by decide⟩

/-- C8 (confirmed): `get_sites_list` returns the empty list on a transport
failure and on any parse failure; being a total function into `List Site`,
it raises nothing to its caller. -/
theorem get_sites_list_never_raises :
    (∀ cause : String, get_sites_list (Except.error cause) = []) ∧
    (∀ body e, parse_sites_lines ((splitLines body).drop 1) = Except.error e →
        get_sites_list (Except.ok body) = []) := by
  constructor
  · intro cause
    rfl
  · intro body e h
    simp only [get_sites_list]
    rw [h]

theorem get_sites_list_never_raises_witness :
    parse_sites_lines ((splitLines exBadSitesBody).drop 1) =
        Except.error "could not convert string to float" ∧
      get_sites_list (Except.ok exBadSitesBody) = [] :=
  ⟨by decide,
    get_sites_list_never_raises.2 exBadSitesBody "could not convert string to float"
      (by decide)⟩

theorem replaceRowFrom_getD (t : Table) (r : List Cell) :
    ∀ j0 j, (replaceRowFrom t j0 r).getD j Cell.null =
      if isNumericColAt t (j0 + j) then replaceSentinelCell (r.getD j Cell.null)
      else r.getD j Cell.null := by
  induction r with
  | nil =>
    intro j0 j
    simp only [replaceRowFrom, List.getD_nil]
    split <;> rfl
  | cons c cs ih =>
    intro j0 j
    cases j with
    | zero =>
      simp [replaceRowFrom]
    | succ n =>
      simp only [replaceRowFrom, List.getD_cons_succ]
      rw [ih (j0 + 1) n]
      have harith : j0 + (n + 1) = (j0 + 1) + n := by omega
      rw [harith]

theorem clean_data_rows_from (t : Table) :
    ∀ r2 ∈ (clean_data t).rows, ∃ r ∈ t.rows, r2 = replaceRowFrom t 0 r := by
  intro r2 h2
  simp only [clean_data] at h2
  by_cases he : t.rows.isEmpty
  · rw [if_pos he] at h2
    rw [List.isEmpty_iff.mp he] at h2
    exact absurd h2 (List.not_mem_nil r2)
  · rw [if_neg he] at h2
    by_cases ha : (extract_aod_columns (replaceInvalid t)).isEmpty
    · rw [if_pos ha] at h2
      obtain ⟨r, hr, heq⟩ := List.mem_map.mp h2
      exact ⟨r, hr, heq.symm⟩
    · rw [if_neg ha] at h2
      have h3 := List.mem_of_mem_filter h2
      obtain ⟨r, hr, heq⟩ := List.mem_map.mp h3
      exact ⟨r, hr, heq.symm⟩

/-- C4 (confirmed): every row of the cleaned frame is a row of the input in
which, in every numeric-dtype column, each occurrence of the sentinel
`-999` (the exact-rational model identifies the integer and decimal
forms) and of the textual marker `'N/A'` has become null, and every other
cell is unchanged. -/
theorem clean_data_replaces_sentinels (t : Table) :
    ∀ r2 ∈ (clean_data t).rows, ∃ r ∈ t.rows,
      ∀ j : Nat, isNumericColAt t j = true →
        ((r.getD j Cell.null = Cell.num (-999) ∨ r.getD j Cell.null = Cell.str "N/A") →
            r2.getD j Cell.null = Cell.null) ∧
        (r.getD j Cell.null ≠ Cell.num (-999) → r.getD j Cell.null ≠ Cell.str "N/A" →
            r2.getD j Cell.null = r.getD j Cell.null) := by
  intro r2 h2
  obtain ⟨r, hr, rfl⟩ := clean_data_rows_from t r2 h2
  refine ⟨r, hr, ?_⟩
  intro j hj
  have hg := replaceRowFrom_getD t r 0 j
  rw [Nat.zero_add] at hg
  rw [hg, if_pos hj]
  constructor
  · rintro (hc | hc) <;> rw [hc] <;> simp [replaceSentinelCell]
  · intro hne1 hne2
    cases hcell : r.getD j Cell.null with
    | num q =>
      have hq : ¬ q = -999 := fun hq => hne1 (by rw [hcell, hq])
      simp [replaceSentinelCell, hq]
    | str s =>
      have hs : ¬ s = "N/A" := fun hs => hne2 (by rw [hcell, hs])
      simp [replaceSentinelCell, hs]
    | dt ts => rfl
    | null => rfl

theorem clean_data_replaces_sentinels_witness :
    [Cell.num (mkRat 2 1), Cell.null] ∈ (clean_data exSentinelTable).rows ∧
      ∃ r ∈ exSentinelTable.rows,
        ∀ j : Nat, isNumericColAt exSentinelTable j = true →
          ((r.getD j Cell.null = Cell.num (-999) ∨ r.getD j Cell.null = Cell.str "N/A") →
              [Cell.num (mkRat 2 1), Cell.null].getD j Cell.null = Cell.null) ∧
          (r.getD j Cell.null ≠ Cell.num (-999) → r.getD j Cell.null ≠ Cell.str "N/A" →
              [Cell.num (mkRat 2 1), Cell.null].getD j Cell.null = r.getD j Cell.null) :=
  ⟨by decide,
    clean_data_replaces_sentinels exSentinelTable [Cell.num (mkRat 2 1), Cell.null]
      (by decide)⟩

/-- C10 (confirmed): cleaning keeps the frame unchanged when it is empty,
drops no rows when no AOD column resolves, and otherwise keeps exactly the
(sentinel-replaced) rows with at least one non-null resolved AOD cell —
the rows whose resolved AOD cells are all null are exactly the ones
removed. -/
theorem clean_data_drop_policy (t : Table) :
    (t.rows = [] → clean_data t = t) ∧
    (t.rows ≠ [] → extract_aod_columns (replaceInvalid t) = [] →
        clean_data t = replaceInvalid t) ∧
    (t.rows ≠ [] → extract_aod_columns (replaceInvalid t) ≠ [] →
        (clean_data t).rows = (replaceInvalid t).rows.filter
          (fun r => ((extract_aod_columns (replaceInvalid t)).map (fun p => p.2)).any
            (fun nm => !(isNaCell (getCellByName t.cols r nm))))) := by
  refine ⟨?_, ?_, ?_⟩
  · intro h
    simp [clean_data, h]
  · intro hne ha
    simp only [clean_data]
    rw [if_neg (by simpa [List.isEmpty_iff] using hne), if_pos (by simp [ha])]
  · intro hne ha
    simp only [clean_data]
    rw [if_neg (by simpa [List.isEmpty_iff] using hne),
      if_neg (by simpa [List.isEmpty_iff] using ha)]
    apply List.filter_congr
    intro r hr
    rw [List.not_all_eq_any_not]
    rfl

theorem clean_data_drop_policy_witness :
    exDropTable.rows ≠ [] ∧
      extract_aod_columns (replaceInvalid exDropTable) ≠ [] ∧
      (clean_data exDropTable).rows = (replaceInvalid exDropTable).rows.filter
        (fun r => ((extract_aod_columns (replaceInvalid exDropTable)).map (fun p => p.2)).any
          (fun nm => !(isNaCell (getCellByName exDropTable.cols r nm)))) :=
  ⟨by decide, by decide,
    (clean_data_drop_policy exDropTable).2.2 (by decide) (by decide)⟩

theorem mkRat_as_div (n : Int) (d : Nat) : (mkRat n d : Rat) = (n : Rat) / (d : Rat) := by
  rw [Rat.mkRat_eq_divInt, Rat.divInt_eq_div]
  norm_num

theorem dictLookup_mem (l : List (Nat × String)) :
    ∀ k v, dictLookup k l = some v → (k, v) ∈ l := by
  induction l with
  | nil =>
    intro k v h
    cases h
  | cons p rest ih =>
    intro k v h
    obtain ⟨k0, v0⟩ := p
    by_cases hk : k0 = k
    · subst hk
      simp [dictLookup] at h
      subst h
      exact List.mem_cons_self _ _
    · simp only [dictLookup, if_neg hk] at h
      exact List.mem_cons_of_mem _ (ih k v h)

theorem numsOf_dropna_exists (cells : List Cell)
    (h : cells.all isNumericCell = true) :
    ∃ xs : List Rat, numsOf (dropna cells) = some xs := by
  induction cells with
  | nil => exact ⟨[], rfl⟩
  | cons c t ih =>
    rw [List.all_cons, Bool.and_eq_true] at h
    obtain ⟨hc, ht⟩ := h
    obtain ⟨xs, hxs⟩ := ih ht
    cases c with
    | num q =>
      refine ⟨q :: xs, ?_⟩
      have hd : dropna (Cell.num q :: t) = Cell.num q :: dropna t := by
        simp [dropna, isNaCell]
      rw [hd]
      simp [numsOf, cellNum, hxs]
    | str s => simp [isNumericCell] at hc
    | dt ts => simp [isNumericCell] at hc
    | null =>
      refine ⟨xs, ?_⟩
      have hd : dropna (Cell.null :: t) = dropna t := by
        simp [dropna, isNaCell]
      rw [hd]
      exact hxs

theorem quantileLinear_q25_three (a b c : Rat) (hs : sortRats [a, b, c] = [a, b, c]) :
    quantileLinear [a, b, c] (mkRat 1 4) = a + mkRat 1 2 * (b - a) := by
  simp only [quantileLinear, hs, List.length_cons, List.length_nil]
  norm_num [mkRat_as_div, List.getD]

theorem quantileLinear_q75_three (a b c : Rat) (hs : sortRats [a, b, c] = [a, b, c]) :
    quantileLinear [a, b, c] (mkRat 3 4) = b + mkRat 1 2 * (c - b) := by
  simp only [quantileLinear, hs, List.length_cons, List.length_nil]
  norm_num [mkRat_as_div, List.getD]
  rw [show Int.toNat 3 / 2 = 1 from by decide]
  norm_num

/-- C5 (confirmed): for numeric AOD columns, `calculate_statistics` returns
nothing exactly when the wavelength is unresolved or the resolved column
has no non-null values, and on the column `[0.1, 0.2, null, 0.4]` it
returns count 3, mean 7/30 = 0.2333…, median 0.2, min 0.1, max 0.4,
sample variance 7/300 (squared N−1 standard deviation), and quartiles
3/20 and 3/10 by linear interpolation. -/
theorem calculate_statistics_spec (df : Table) (w : Nat) (h : aodColsNumeric df = true) :
    (calculate_statistics df w = none ↔
      dictLookup w (extract_aod_columns df) = none ∨
        ∃ c, dictLookup w (extract_aod_columns df) = some c ∧
          dropna (getColumnByName df c) = []) ∧
    calculate_statistics exStatsTable 440 =
      some { count := 3, mean := mkRat 7 30, median := mkRat 1 5,
             std2 := some (mkRat 7 300), min := mkRat 1 10, max := mkRat 2 5,
             q25 := mkRat 3 20, q75 := mkRat 3 10 } := by
  constructor
  · cases hl : dictLookup w (extract_aod_columns df) with
    | none =>
      simp [calculate_statistics, hl]
    | some c =>
      have hmem : (w, c) ∈ extract_aod_columns df := dictLookup_mem _ _ _ hl
      have hnum : (getColumnByName df c).all isNumericCell = true := by
        unfold aodColsNumeric at h
        have := List.all_eq_true.mp h (w, c) hmem
        simpa using this
      by_cases hd : (dropna (getColumnByName df c)).isEmpty
      · constructor
        · intro _
          exact Or.inr ⟨c, rfl, List.isEmpty_iff.mp hd⟩
        · intro _
          simp [calculate_statistics, hl, hd]
      · obtain ⟨xs, hxs⟩ := numsOf_dropna_exists _ hnum
        constructor
        · intro hnone
          exfalso
          simp [calculate_statistics, hl, hd, hxs] at hnone
        · rintro (hcl | ⟨c2, hc2, hde⟩)
          · cases hcl
          · injection hc2 with hc2
            subst hc2
            rw [hde] at hd
            simp at hd
  · have hsort : sortRats [mkRat 1 10, mkRat 1 5, mkRat 2 5] =
        [mkRat 1 10, mkRat 1 5, mkRat 2 5] := by decide
    have hred : calculate_statistics exStatsTable 440 =
        some { count := 3,
               mean := ratSum [mkRat 1 10, mkRat 1 5, mkRat 2 5] / ((3 : Nat) : Rat),
               median := medianOf [mkRat 1 10, mkRat 1 5, mkRat 2 5],
               std2 :=
                 if 2 ≤ 3 then
                   some (ratSum (List.map
                       (fun x => (x - ratSum [mkRat 1 10, mkRat 1 5, mkRat 2 5] /
                         ((3 : Nat) : Rat)) ^ 2)
                       [mkRat 1 10, mkRat 1 5, mkRat 2 5]) / (((3 : Nat) : Rat) - 1))
                 else none,
               min := listMin [mkRat 1 10, mkRat 1 5, mkRat 2 5],
               max := listMax [mkRat 1 10, mkRat 1 5, mkRat 2 5],
               q25 := quantileLinear [mkRat 1 10, mkRat 1 5, mkRat 2 5] (mkRat 1 4),
               q75 := quantileLinear [mkRat 1 10, mkRat 1 5, mkRat 2 5] (mkRat 3 4) } := rfl
    have hmean : ratSum [mkRat 1 10, mkRat 1 5, mkRat 2 5] / ((3 : Nat) : Rat) =
        mkRat 7 30 := by
      simp only [ratSum, List.foldl_cons, List.foldl_nil, mkRat_as_div]
      norm_num
    have hstd : ratSum (List.map (fun x => (x - mkRat 7 30) ^ 2)
        [mkRat 1 10, mkRat 1 5, mkRat 2 5]) / (((3 : Nat) : Rat) - 1) = mkRat 7 300 := by
      simp only [List.map_cons, List.map_nil, ratSum, List.foldl_cons, List.foldl_nil,
        mkRat_as_div]
      norm_num
    have hmed : medianOf [mkRat 1 10, mkRat 1 5, mkRat 2 5] = mkRat 1 5 := by decide
    have hmin : listMin [mkRat 1 10, mkRat 1 5, mkRat 2 5] = mkRat 1 10 := by decide
    have hmax : listMax [mkRat 1 10, mkRat 1 5, mkRat 2 5] = mkRat 2 5 := by decide
    have hq25 : quantileLinear [mkRat 1 10, mkRat 1 5, mkRat 2 5] (mkRat 1 4) =
        mkRat 3 20 := by
      rw [quantileLinear_q25_three _ _ _ hsort]
      simp only [mkRat_as_div]
      norm_num
    have hq75 : quantileLinear [mkRat 1 10, mkRat 1 5, mkRat 2 5] (mkRat 3 4) =
        mkRat 3 10 := by
      rw [quantileLinear_q75_three _ _ _ hsort]
      simp only [mkRat_as_div]
      norm_num
    rw [hred, hmean, hstd, hmed, hmin, hmax, hq25, hq75]
    rfl

theorem calculate_statistics_spec_witness :
    aodColsNumeric exStatsTable = true ∧
      calculate_statistics exStatsTable 440 =
        some { count := 3, mean := mkRat 7 30, median := mkRat 1 5,
               std2 := some (mkRat 7 300), min := mkRat 1 10, max := mkRat 2 5,
               q25 := mkRat 3 20, q75 := mkRat 3 10 } :=
  ⟨by decide, (calculate_statistics_spec exStatsTable 440 (by decide)).2⟩

theorem sort_by_datetime_sorted (t : Table) (h : t.cols.contains "datetime" = true) :
    (sort_by_datetime t).rows.Sorted (fun a b => rowKey t.cols a ≤ rowKey t.cols b) := by
  unfold sort_by_datetime
  rw [if_pos h]
  haveI : IsTotal (List Cell) (fun a b => rowKey t.cols a ≤ rowKey t.cols b) :=
    ⟨fun a b => Nat.le_total _ _⟩
  haveI : IsTrans (List Cell) (fun a b => rowKey t.cols a ≤ rowKey t.cols b) :=
    ⟨fun a b c hab hbc => Nat.le_trans hab hbc⟩
  exact List.sorted_insertionSort _ _
